import Mathlib

/-
Verification development for the authentication / authorization core of the
saas-app-db backend (src/backend/server.py): the JWT token verifier, the
identity hydrator (`get_current_user`) and the authorization evaluator
(the `UserContext` methods). Python datetimes are embedded as natural
numbers, `Optional[T]` as `Option T`, `Dict[str, Any]` values as opaque
strings, and the external collaborators (the PyJWT decoder and the
Supabase store) as explicit inputs to the embedded functions.
-/

namespace SaasApp

/-- The six-valued `UserRole` enum from server.py (lines 90-96). -/
inductive UserRole where
  | saas_super_admin
  | saas_admin
  | saas_accountant
  | organization_owner
  | organization_admin
  | organization_user
deriving DecidableEq, Repr

/-- The `SubscriptionTier` enum from server.py (lines 98-102). -/
inductive SubscriptionTier where
  | free
  | starter
  | professional
  | enterprise
deriving DecidableEq, Repr

/-- The `UserProfile` pydantic model (server.py lines 104-115); datetimes as Nat. -/
structure UserProfile where
  id : String
  email : String
  first_name : Option String := none
  last_name : Option String := none
  avatar_url : Option String := none
  phone : Option String := none
  timezone : String := "UTC"
  created_at : Nat
  updated_at : Nat
  last_login : Option Nat := none
  is_active : Bool := true
deriving DecidableEq, Repr

/-- The `Organization` pydantic model (server.py lines 123-132); the
`settings: Dict[str, Any]` mapping is embedded as an association list with
opaque string values. -/
structure Organization where
  id : String
  name : String
  domain : Option String := none
  created_at : Nat
  updated_at : Nat
  is_active : Bool := true
  subscription_tier : SubscriptionTier := .free
  max_users : Nat := 5
  settings : List (String × String) := []
deriving DecidableEq, Repr

/-- The `OrganizationMembership` pydantic model (server.py lines 134-145). -/
structure OrganizationMembership where
  id : String
  user_id : String
  organization_id : String
  role : UserRole
  invited_by : Option String := none
  invited_at : Nat
  accepted_at : Option Nat := none
  created_at : Nat
  updated_at : Nat
  is_active : Bool := true
  organization : Option Organization := none
deriving DecidableEq, Repr

/-- A decoded JWT payload (`Dict[str, Any]`): the code reads only the `sub`
and `email` keys (`payload.get(...)` yields `Option String`); every other
claim is carried opaquely in `extra`. -/
structure Payload where
  sub : Option String := none
  email : Option String := none
  extra : List (String × String) := []
deriving DecidableEq, Repr

/-- The `UserContext` pydantic model (server.py lines 147-152). -/
structure UserContext where
  id : String
  email : String
  profile : UserProfile
  memberships : List OrganizationMembership := []
  raw_payload : Payload := {}
deriving DecidableEq, Repr

/-- The loop condition of `get_membership_for_organization` (server.py line
156): `membership.organization_id == org_id and membership.is_active`. -/
def memMatch (org_id : String) (membership : OrganizationMembership) : Bool :=
  membership.organization_id == org_id && membership.is_active

/-- The loop body of `UserContext.get_membership_for_organization`
(server.py lines 154-158): scan `self.memberships` in order, return the
first entry satisfying the loop condition, else `None`. -/
def findMembership (org_id : String) :
    List OrganizationMembership → Option OrganizationMembership
  | [] => none
  | membership :: rest =>
      if memMatch org_id membership then
        some membership
      else
        findMembership org_id rest

/-- `UserContext.get_membership_for_organization` (server.py lines 154-158). -/
def UserContext.get_membership_for_organization (ctx : UserContext)
    (org_id : String) : Option OrganizationMembership :=
  findMembership org_id ctx.memberships

/-- The `role_hierarchy` dict of `has_minimum_role_in_organization`
(server.py lines 161-168). The Python code reads it with
`.get(role, 0)`; the dict lists all six members of the closed enum, so the
mapping is total and the 0 default is unreachable. -/
def role_hierarchy : UserRole → Nat
  | .organization_user => 1
  | .organization_admin => 2
  | .organization_owner => 3
  | .saas_accountant => 4
  | .saas_admin => 5
  | .saas_super_admin => 6

/-- `UserContext.has_minimum_role_in_organization` (server.py lines 160-177). -/
def UserContext.has_minimum_role_in_organization (ctx : UserContext)
    (org_id : String) (min_role : UserRole) : Bool :=
  match ctx.get_membership_for_organization org_id with
  | none => false
  | some membership =>
      decide (role_hierarchy membership.role ≥ role_hierarchy min_role)

/-- The `saas_roles` set of `has_saas_role` (server.py line 180). -/
def saas_roles : List UserRole :=
  [.saas_accountant, .saas_admin, .saas_super_admin]

/-- `UserContext.has_saas_role` (server.py lines 179-181): note it tests
only the role, never `is_active`. -/
def UserContext.has_saas_role (ctx : UserContext) : Bool :=
  ctx.memberships.any (fun membership => saas_roles.contains membership.role)

/-- An HTTP error as raised via `HTTPException(status_code, detail, headers)`. -/
structure HTTPError where
  status_code : Nat
  detail : String
  headers : List (String × String) := []
deriving DecidableEq, Repr

/-- The outcome of the external `jwt.decode` call on a token (server.py
lines 42-48): either a decoded payload, or one of the three exception
classes caught by `decode_token`, in the order of its except clauses
(`ExpiredSignatureError`, then `InvalidTokenError`, then `PyJWTError`). -/
inductive DecodeOutcome where
  | ok (payload : Payload)
  | expiredSignature
  | invalidToken
  | otherPyJWTError
deriving DecidableEq, Repr

/-- True for the three failing constructors of `DecodeOutcome`. -/
def DecodeOutcome.isFailure : DecodeOutcome → Bool
  | .ok _ => false
  | .expiredSignature => true
  | .invalidToken => true
  | .otherPyJWTError => true

/-- `JWTHandler.decode_token` (server.py lines 41-67) as a function of the
decoder outcome: each caught exception becomes an `HTTPException` with
status 401 and a per-kind detail string; no logging call appears in the
method body. -/
def decode_token : DecodeOutcome → Except HTTPError Payload
  | .ok payload => .ok payload
  | .expiredSignature =>
      .error ⟨401, "Token has expired", [("WWW-Authenticate", "Bearer")]⟩
  | .invalidToken =>
      .error ⟨401, "Invalid authentication token", [("WWW-Authenticate", "Bearer")]⟩
  | .otherPyJWTError =>
      .error ⟨401, "Could not validate credentials", [("WWW-Authenticate", "Bearer")]⟩

/-- Python truth-value test `not x` on an `Optional[str]`: true when the
value is absent or the empty string. -/
def strFalsy : Option String → Bool
  | none => true
  | some s => s.isEmpty

/-- `JWTHandler.get_user_id` (server.py lines 69-76). -/
def get_user_id (payload : Payload) : Except HTTPError String :=
  if strFalsy payload.sub then
    .error ⟨401, "Token does not contain user ID", []⟩
  else
    .ok (payload.sub.getD "")

/-- `JWTHandler.get_user_email` (server.py lines 78-85). -/
def get_user_email (payload : Payload) : Except HTTPError String :=
  if strFalsy payload.email then
    .error ⟨401, "Token does not contain user email", []⟩
  else
    .ok (payload.email.getD "")

/-- A row of the `organization_memberships` table as returned by the
hydration query with its joined `organization:organizations(*)` record
(`None` when the join produced no/empty data, in which case the code
leaves `membership.organization` unset). -/
structure StoreMembershipRow where
  id : String
  user_id : String
  organization_id : String
  role : UserRole
  invited_by : Option String := none
  invited_at : Nat
  accepted_at : Option Nat := none
  created_at : Nat
  updated_at : Nat
  is_active : Bool := true
  organization : Option Organization := none
deriving DecidableEq, Repr

/-- The Supabase store as seen by `get_current_user`: the two tables it
reads, each as a list of rows in the store's stable iteration order. -/
structure Store where
  user_profiles : List UserProfile := []
  organization_memberships : List StoreMembershipRow := []
deriving DecidableEq, Repr

/-- The membership-construction step of the hydration loop (server.py
lines 216-221): `item.pop("organization")` then `OrganizationMembership(**item)`
then attach the organization when the popped data was non-empty. -/
def rowToMembership (row : StoreMembershipRow) : OrganizationMembership :=
  { id := row.id
    user_id := row.user_id
    organization_id := row.organization_id
    role := row.role
    invited_by := row.invited_by
    invited_at := row.invited_at
    accepted_at := row.accepted_at
    created_at := row.created_at
    updated_at := row.updated_at
    is_active := row.is_active
    organization := row.organization }

/-- `get_current_user` (server.py lines 186-235) as a function of the
presented credentials (absent, or a token with its decoder outcome) and
the store contents. The profile query
`.eq("id", user_id).single()` is embedded as the first row with matching
id; the membership query filters `user_id` and `is_active=True`,
preserving store order. -/
def get_current_user (credentials : Option DecodeOutcome) (store : Store) :
    Except HTTPError UserContext :=
  match credentials with
  | none =>
      .error ⟨401, "Bearer authentication required", [("WWW-Authenticate", "Bearer")]⟩
  | some outcome =>
      match decode_token outcome with
      | .error e => .error e
      | .ok payload =>
          match get_user_id payload with
          | .error e => .error e
          | .ok user_id =>
              match get_user_email payload with
              | .error e => .error e
              | .ok email =>
                  match store.user_profiles.find? (fun p => p.id == user_id) with
                  | none => .error ⟨401, "User profile not found", []⟩
                  | some profile =>
                      let rows := store.organization_memberships.filter
                        (fun row => row.user_id == user_id && row.is_active)
                      let memberships := rows.map rowToMembership
                      .ok { id := user_id
                            email := email
                            profile := profile
                            memberships := memberships
                            raw_payload := payload }

/-- The hand-rolled scan agrees with `List.find?` of its predicate. -/
theorem findMembership_eq_find (org_id : String)
    (l : List OrganizationMembership) :
    findMembership org_id l = l.find? (memMatch org_id) := by
  induction l with
  | nil => rfl
  | cons membership rest ih =>
      rw [findMembership, List.find?]
      cases h : memMatch org_id membership with
      | true => simp
      | false => simp [ih]

/-- A boolean membership match is equivalent to its propositional reading. -/
theorem memMatch_eq_true_iff (org_id : String) (m : OrganizationMembership) :
    memMatch org_id m = true ↔ m.organization_id = org_id ∧ m.is_active = true := by
  simp [memMatch]

/-- A role is in the `saas_roles` set iff it is one of the three platform roles. -/
theorem saas_roles_contains_iff (r : UserRole) :
    saas_roles.contains r = true ↔
      r = UserRole.saas_accountant ∨ r = UserRole.saas_admin ∨
        r = UserRole.saas_super_admin := by
  cases r <;> decide

/-- Sample profile used by concrete witnesses. -/
def sampleProfile : UserProfile :=
  { id := "u1", email := "u1@x.com", created_at := 0, updated_at := 0 }

/-- Sample active owner membership in organization `o1`. -/
def sampleOwnerMembership : OrganizationMembership :=
  { id := "m1", user_id := "u1", organization_id := "o1"
    role := .organization_owner, invited_at := 0, created_at := 0, updated_at := 0 }

/-- Sample identity snapshot: one active `organization_owner` membership in `o1`. -/
def sampleCtx : UserContext :=
  { id := "u1", email := "u1@x.com", profile := sampleProfile
    memberships := [sampleOwnerMembership] }

/-- C2: `has_saas_role` is true iff some membership in the snapshot's list
(whatever organization it is attached to) carries one of the three platform
roles; in particular it is false when every membership carries an
organization-level role. -/
theorem claim_C2 (ctx : UserContext) :
    ctx.has_saas_role = true ↔
      ∃ m ∈ ctx.memberships,
        m.role = UserRole.saas_accountant ∨ m.role = UserRole.saas_admin ∨
          m.role = UserRole.saas_super_admin := by
  rw [UserContext.has_saas_role, List.any_eq_true]
  constructor
  · rintro ⟨m, hm, hrole⟩
    exact ⟨m, hm, (saas_roles_contains_iff m.role).mp hrole⟩
  · rintro ⟨m, hm, hrole⟩
    exact ⟨m, hm, (saas_roles_contains_iff m.role).mpr hrole⟩

/-- C3: `get_membership_for_organization O` returns the first membership in
list order whose organization id is `O` and whose active flag is true — no
earlier entry matches — and returns none exactly when no entry matches; with
duplicate matches the first in iteration order wins. -/
theorem claim_C3 (ctx : UserContext) (O : String) :
    (∀ m, ctx.get_membership_for_organization O = some m →
        m.organization_id = O ∧ m.is_active = true ∧
        ∃ l1 l2, ctx.memberships = l1 ++ m :: l2 ∧
          ∀ prev ∈ l1, ¬(prev.organization_id = O ∧ prev.is_active = true)) ∧
    (ctx.get_membership_for_organization O = none ↔
      ∀ m ∈ ctx.memberships, ¬(m.organization_id = O ∧ m.is_active = true)) := by
  rw [UserContext.get_membership_for_organization, findMembership_eq_find]
  constructor
  · intro m hm
    rw [List.find?_eq_some] at hm
    obtain ⟨hpred, l1, l2, heq, hprev⟩ := hm
    obtain ⟨h1, h2⟩ := (memMatch_eq_true_iff O m).mp hpred
    refine ⟨h1, h2, l1, l2, heq, ?_⟩
    intro prev hmem hcontra
    have hfalse := hprev prev hmem
    rw [(memMatch_eq_true_iff O prev).mpr hcontra] at hfalse
    exact absurd hfalse (by simp)
  · rw [List.find?_eq_none]
    constructor
    · intro hnone m hm hcontra
      exact hnone m hm ((memMatch_eq_true_iff O m).mpr hcontra)
    · intro hall m hm hpred
      exact hall m hm ((memMatch_eq_true_iff O m).mp hpred)

/-- C4: when the snapshot holds no active membership for organization `O`,
`has_minimum_role_in_organization O r` is false for every role argument. -/
theorem claim_C4 (ctx : UserContext) (O : String) (r : UserRole)
    (h : ∀ m ∈ ctx.memberships, ¬(m.organization_id = O ∧ m.is_active = true)) :
    ctx.has_minimum_role_in_organization O r = false := by
  have hnone : ctx.get_membership_for_organization O = none := by
    rw [UserContext.get_membership_for_organization, findMembership_eq_find,
      List.find?_eq_none]
    intro m hm hpred
    exact h m hm ((memMatch_eq_true_iff O m).mp hpred)
  rw [UserContext.has_minimum_role_in_organization, hnone]

/-- C4 witness: the sample snapshot has no membership for `o2`, so the check
fails there even for the lowest role. -/
theorem claim_C4_witness :
    (∀ m ∈ sampleCtx.memberships,
      ¬(m.organization_id = "o2" ∧ m.is_active = true)) ∧
    sampleCtx.has_minimum_role_in_organization "o2" .organization_user = false :=
  ⟨by decide, claim_C4 sampleCtx "o2" .organization_user (by decide)⟩

/-- C1: when the snapshot holds an active membership in organization `O`
and every active membership it holds there carries role `r1` (the spec's
"at most one must match" invariant), `has_minimum_role_in_organization O r2`
is true iff `rank(r1) ≥ rank(r2)` in the fixed six-level order. -/
theorem claim_C1 (ctx : UserContext) (O : String) (r1 r2 : UserRole)
    (hexists : ∃ m ∈ ctx.memberships, m.organization_id = O ∧ m.is_active = true)
    (hrole : ∀ m ∈ ctx.memberships,
        m.organization_id = O → m.is_active = true → m.role = r1) :
    ctx.has_minimum_role_in_organization O r2 = true ↔
      role_hierarchy r1 ≥ role_hierarchy r2 := by
  obtain ⟨m0, hm0, h1, h2⟩ := hexists
  have hsome : ∃ mem, ctx.memberships.find? (memMatch O) = some mem := by
    rw [← Option.isSome_iff_exists, List.find?_isSome]
    exact ⟨m0, hm0, (memMatch_eq_true_iff O m0).mpr ⟨h1, h2⟩⟩
  obtain ⟨mem, hmem⟩ := hsome
  have hmemIn : mem ∈ ctx.memberships := List.mem_of_find?_eq_some hmem
  obtain ⟨hOrg, hAct⟩ :=
    (memMatch_eq_true_iff O mem).mp (List.find?_some hmem)
  have hr1 : mem.role = r1 := hrole mem hmemIn hOrg hAct
  have hget : ctx.get_membership_for_organization O = some mem := by
    rw [UserContext.get_membership_for_organization, findMembership_eq_find]
    exact hmem
  rw [UserContext.has_minimum_role_in_organization, hget]
  show decide (role_hierarchy mem.role ≥ role_hierarchy r2) = true ↔
    role_hierarchy r1 ≥ role_hierarchy r2
  rw [hr1]
  exact decide_eq_true_iff

/-- C1 witness: in the sample snapshot the `o1` role is `organization_owner`,
so the owner-vs-admin check evaluates to rank comparison 3 ≥ 2. -/
theorem claim_C1_witness :
    (∃ m ∈ sampleCtx.memberships, m.organization_id = "o1" ∧ m.is_active = true) ∧
    (∀ m ∈ sampleCtx.memberships, m.organization_id = "o1" → m.is_active = true →
        m.role = UserRole.organization_owner) ∧
    (sampleCtx.has_minimum_role_in_organization "o1" .organization_admin = true ↔
      role_hierarchy .organization_owner ≥ role_hierarchy .organization_admin) :=
  ⟨by decide, by decide,
    claim_C1 sampleCtx "o1" .organization_owner .organization_admin
      (by decide) (by decide)⟩

/-- C9: the three Authorization Evaluator queries are deterministic,
side-effect-free functions of the snapshot and their arguments: two
evaluations on equal snapshots with equal arguments yield identical answers. -/
theorem claim_C9 (ctx1 ctx2 : UserContext) (org1 org2 : String)
    (role1 role2 : UserRole)
    (hctx : ctx1 = ctx2) (horg : org1 = org2) (hrole : role1 = role2) :
    ctx1.get_membership_for_organization org1 =
        ctx2.get_membership_for_organization org2 ∧
      ctx1.has_minimum_role_in_organization org1 role1 =
        ctx2.has_minimum_role_in_organization org2 role2 ∧
      ctx1.has_saas_role = ctx2.has_saas_role := by
  subst hctx
  subst horg
  subst hrole
  exact ⟨rfl, rfl, rfl⟩

/-- C9 witness: re-running the evaluator on the sample snapshot with the same
arguments gives identical answers. -/
theorem claim_C9_witness :
    sampleCtx.get_membership_for_organization "o1" =
        sampleCtx.get_membership_for_organization "o1" ∧
      sampleCtx.has_minimum_role_in_organization "o1" .organization_admin =
        sampleCtx.has_minimum_role_in_organization "o1" .organization_admin ∧
      sampleCtx.has_saas_role = sampleCtx.has_saas_role :=
  claim_C9 sampleCtx sampleCtx "o1" "o1" .organization_admin .organization_admin
    rfl rfl rfl

/-- C10: `has_saas_role` never consults `is_active`: an inactive membership
with a platform role makes it true, while `get_membership_for_organization`
only ever returns active memberships, and when every membership for that
organization is inactive the lookup yields none and every minimum-role check
there is false. -/
theorem claim_C10 (ctx : UserContext) (m : OrganizationMembership)
    (hm : m ∈ ctx.memberships) (_hinactive : m.is_active = false)
    (hrole : m.role = UserRole.saas_accountant ∨ m.role = UserRole.saas_admin ∨
        m.role = UserRole.saas_super_admin) :
    ctx.has_saas_role = true ∧
      (∀ mfound, ctx.get_membership_for_organization m.organization_id =
          some mfound → mfound.is_active = true) ∧
      ((∀ other ∈ ctx.memberships,
          other.organization_id = m.organization_id → other.is_active = false) →
        ctx.get_membership_for_organization m.organization_id = none ∧
          ∀ r, ctx.has_minimum_role_in_organization m.organization_id r = false) := by
  refine ⟨?_, ?_, ?_⟩
  · rw [UserContext.has_saas_role, List.any_eq_true]
    exact ⟨m, hm, (saas_roles_contains_iff m.role).mpr hrole⟩
  · intro mfound hfound
    rw [UserContext.get_membership_for_organization, findMembership_eq_find] at hfound
    exact ((memMatch_eq_true_iff m.organization_id mfound).mp
      (List.find?_some hfound)).2
  · intro hall
    have hnone : ctx.get_membership_for_organization m.organization_id = none := by
      rw [UserContext.get_membership_for_organization, findMembership_eq_find,
        List.find?_eq_none]
      intro other hother hpred
      obtain ⟨ho1, ho2⟩ := (memMatch_eq_true_iff m.organization_id other).mp hpred
      rw [hall other hother ho1] at ho2
      exact absurd ho2 (by simp)
    refine ⟨hnone, ?_⟩
    intro r
    rw [UserContext.has_minimum_role_in_organization, hnone]

/-- Sample inactive platform-role membership in organization `o9`. -/
def sampleInactiveSaasMembership : OrganizationMembership :=
  { id := "m9", user_id := "u1", organization_id := "o9"
    role := .saas_admin, invited_at := 0, created_at := 0, updated_at := 0
    is_active := false }

/-- Sample snapshot whose only membership is the inactive `saas_admin` one. -/
def sampleInactiveCtx : UserContext :=
  { id := "u1", email := "u1@x.com", profile := sampleProfile
    memberships := [sampleInactiveSaasMembership] }

/-- C10 witness: a snapshot with a single inactive `saas_admin` membership
still reports a platform role while the organization lookups ignore it. -/
theorem claim_C10_witness :
    sampleInactiveSaasMembership ∈ sampleInactiveCtx.memberships ∧
    sampleInactiveCtx.has_saas_role = true ∧
    sampleInactiveCtx.get_membership_for_organization "o9" = none :=
  have hmain := claim_C10 sampleInactiveCtx sampleInactiveSaasMembership
    (by decide) (by decide) (by decide)
  ⟨by decide, hmain.1, (hmain.2.2 (by decide)).1⟩

/-- Projection of a verifier result to the detail string the client sees. -/
def errorDetail : Except HTTPError Payload → Option String
  | .error e => some e.detail
  | .ok _ => none

/-- C5 counterexample: the failure reason IS included in what is returned to
the client — the expired-token failure is surfaced with detail
"Token has expired", which differs from the invalid-token failure's result,
so the verifier does not surface failures uniformly as one generic signal. -/
theorem claim_C5_counterexample :
    decode_token DecodeOutcome.expiredSignature =
        Except.error ⟨401, "Token has expired", [("WWW-Authenticate", "Bearer")]⟩ ∧
      decode_token DecodeOutcome.expiredSignature ≠
        decode_token DecodeOutcome.invalidToken :=
  ⟨rfl, fun h => absurd (congrArg errorDetail h) (by decide)⟩

/-- C5 (amended): every decode failure is surfaced to the caller as an
unauthorized error — status 401 with a WWW-Authenticate Bearer header — but
the detail string returned to the client differs by failure kind ("Token has
expired", "Invalid authentication token", "Could not validate credentials"),
so the specific reason is included in the client-visible result, and
`decode_token` performs no logging of its own. -/
theorem claim_C5 (outcome : DecodeOutcome) (hfail : outcome.isFailure = true) :
    ∃ e : HTTPError, decode_token outcome = .error e ∧ e.status_code = 401 ∧
      ("WWW-Authenticate", "Bearer") ∈ e.headers ∧
      (outcome = .expiredSignature → e.detail = "Token has expired") ∧
      (outcome = .invalidToken → e.detail = "Invalid authentication token") ∧
      (outcome = .otherPyJWTError →
        e.detail = "Could not validate credentials") := by
  cases outcome with
  | ok payload => exact absurd hfail (by simp [DecodeOutcome.isFailure])
  | expiredSignature =>
      refine ⟨_, rfl, rfl, by decide, fun _ => rfl, fun h => ?_, fun h => ?_⟩ <;>
        exact absurd h (by decide)
  | invalidToken =>
      refine ⟨_, rfl, rfl, by decide, fun h => ?_, fun _ => rfl, fun h => ?_⟩ <;>
        exact absurd h (by decide)
  | otherPyJWTError =>
      refine ⟨_, rfl, rfl, by decide, fun h => ?_, fun h => ?_, fun _ => rfl⟩ <;>
        exact absurd h (by decide)

/-- C5 witness: the amended statement instantiated at the expired-token
failure. -/
theorem claim_C5_witness :
    DecodeOutcome.expiredSignature.isFailure = true ∧
      ∃ e : HTTPError, decode_token .expiredSignature = .error e ∧
        e.status_code = 401 ∧ ("WWW-Authenticate", "Bearer") ∈ e.headers ∧
        (DecodeOutcome.expiredSignature = .expiredSignature →
          e.detail = "Token has expired") ∧
        (DecodeOutcome.expiredSignature = .invalidToken →
          e.detail = "Invalid authentication token") ∧
        (DecodeOutcome.expiredSignature = .otherPyJWTError →
          e.detail = "Could not validate credentials") :=
  ⟨rfl, claim_C5 .expiredSignature rfl⟩

/-- C6: a token that decodes successfully but whose payload lacks a subject
id or an email (absent key or empty string, Python falsiness) is rejected
with a 401 error, and the result does not depend on the store at all — no
snapshot with empty subject or email fields is ever produced. -/
theorem claim_C6 (store1 store2 : Store) (payload : Payload)
    (hmissing : strFalsy payload.sub = true ∨ strFalsy payload.email = true) :
    (∃ e, get_current_user (some (.ok payload)) store1 = .error e ∧
        e.status_code = 401) ∧
      get_current_user (some (.ok payload)) store1 =
        get_current_user (some (.ok payload)) store2 := by
  cases hsub : strFalsy payload.sub with
  | true =>
      have hrun1 : get_current_user (some (.ok payload)) store1 =
          .error ⟨401, "Token does not contain user ID", []⟩ := by
        simp [get_current_user, decode_token, get_user_id, hsub]
      have hrun2 : get_current_user (some (.ok payload)) store2 =
          .error ⟨401, "Token does not contain user ID", []⟩ := by
        simp [get_current_user, decode_token, get_user_id, hsub]
      exact ⟨⟨_, hrun1, rfl⟩, hrun1.trans hrun2.symm⟩
  | false =>
      have hemail : strFalsy payload.email = true := by
        rcases hmissing with h | h
        · rw [h] at hsub
          exact absurd hsub (by simp)
        · exact h
      have hrun1 : get_current_user (some (.ok payload)) store1 =
          .error ⟨401, "Token does not contain user email", []⟩ := by
        simp [get_current_user, decode_token, get_user_id, get_user_email,
          hsub, hemail]
      have hrun2 : get_current_user (some (.ok payload)) store2 =
          .error ⟨401, "Token does not contain user email", []⟩ := by
        simp [get_current_user, decode_token, get_user_id, get_user_email,
          hsub, hemail]
      exact ⟨⟨_, hrun1, rfl⟩, hrun1.trans hrun2.symm⟩

/-- Sample decoded payload carrying subject `u1` and an email claim. -/
def samplePayload : Payload := { sub := some "u1", email := some "u1@x.com" }

/-- Sample payload with an email claim but no `sub` claim. -/
def noSubPayload : Payload := { email := some "u1@x.com" }

/-- Sample store holding the `u1` profile and no membership rows. -/
def sampleStore : Store := { user_profiles := [sampleProfile] }

/-- A store with no rows at all. -/
def emptyStore : Store := {}

/-- C6 witness: a payload without a `sub` claim is rejected with 401, with
the same result against two different stores. -/
theorem claim_C6_witness :
    (strFalsy noSubPayload.sub = true ∨ strFalsy noSubPayload.email = true) ∧
      ((∃ e, get_current_user (some (.ok noSubPayload)) sampleStore = .error e ∧
          e.status_code = 401) ∧
        get_current_user (some (.ok noSubPayload)) sampleStore =
          get_current_user (some (.ok noSubPayload)) emptyStore) :=
  ⟨Or.inl rfl, claim_C6 sampleStore emptyStore noSubPayload (Or.inl rfl)⟩

/-- C7: a valid payload whose subject id has no profile row in the store
makes hydration fail with the 401 "User profile not found" error — an
authentication failure, not a 404 — and no snapshot is returned. -/
theorem claim_C7 (store : Store) (payload : Payload) (uid email : String)
    (hsub : payload.sub = some uid) (huid : uid.isEmpty = false)
    (hemail : payload.email = some email) (hem : email.isEmpty = false)
    (hnoprofile : ∀ p ∈ store.user_profiles, p.id ≠ uid) :
    get_current_user (some (.ok payload)) store =
        .error ⟨401, "User profile not found", []⟩ ∧
      ∀ e, get_current_user (some (.ok payload)) store = .error e →
        e.status_code = 401 ∧ e.status_code ≠ 404 := by
  have hfind : store.user_profiles.find? (fun p => p.id == uid) = none := by
    rw [List.find?_eq_none]
    intro p hp hpred
    exact hnoprofile p hp (by simpa using hpred)
  have hrun : get_current_user (some (.ok payload)) store =
      .error ⟨401, "User profile not found", []⟩ := by
    simp [get_current_user, decode_token, get_user_id, get_user_email,
      strFalsy, hsub, hemail, huid, hem, hfind]
  refine ⟨hrun, fun e he => ?_⟩
  rw [hrun] at he
  injection he with h
  rw [← h]
  exact ⟨rfl, by decide⟩

/-- C7 witness: subject `u1` against the empty store fails with the 401
profile-not-found error. -/
theorem claim_C7_witness :
    (∀ p ∈ emptyStore.user_profiles, p.id ≠ "u1") ∧
      (get_current_user (some (.ok samplePayload)) emptyStore =
          .error ⟨401, "User profile not found", []⟩ ∧
        ∀ e, get_current_user (some (.ok samplePayload)) emptyStore = .error e →
          e.status_code = 401 ∧ e.status_code ≠ 404) :=
  ⟨by decide,
    claim_C7 emptyStore samplePayload "u1" "u1@x.com" rfl rfl rfl rfl (by decide)⟩

/-- C8: when the subject has a profile row, hydration succeeds and the
snapshot's membership list is exactly the store's matching active rows, in
store fetch order (no re-sorting); in particular zero active membership rows
yield a snapshot with an empty membership list. -/
theorem claim_C8 (store : Store) (payload : Payload) (uid email : String)
    (profile : UserProfile)
    (hsub : payload.sub = some uid) (huid : uid.isEmpty = false)
    (hemail : payload.email = some email) (hem : email.isEmpty = false)
    (hprofile : store.user_profiles.find? (fun p => p.id == uid) = some profile) :
    get_current_user (some (.ok payload)) store =
        .ok { id := uid, email := email, profile := profile
              memberships := (store.organization_memberships.filter
                (fun row => row.user_id == uid && row.is_active)).map
                  rowToMembership
              raw_payload := payload } ∧
      (store.organization_memberships.filter
          (fun row => row.user_id == uid && row.is_active) = [] →
        ∃ ctx, get_current_user (some (.ok payload)) store = .ok ctx ∧
          ctx.memberships = []) := by
  have hrun : get_current_user (some (.ok payload)) store =
      .ok { id := uid, email := email, profile := profile
            memberships := (store.organization_memberships.filter
              (fun row => row.user_id == uid && row.is_active)).map
                rowToMembership
            raw_payload := payload } := by
    simp [get_current_user, decode_token, get_user_id, get_user_email,
      strFalsy, hsub, hemail, huid, hem, hprofile]
  refine ⟨hrun, fun hempty => ⟨_, hrun, ?_⟩⟩
  simp [hempty]

/-- C8 witness: subject `u1` with a profile row and zero membership rows
hydrates to a snapshot with an empty membership list. -/
theorem claim_C8_witness :
    sampleStore.user_profiles.find? (fun p => p.id == "u1") =
        some sampleProfile ∧
      ∃ ctx, get_current_user (some (.ok samplePayload)) sampleStore =
          .ok ctx ∧ ctx.memberships = [] :=
  ⟨by decide,
    (claim_C8 sampleStore samplePayload "u1" "u1@x.com" sampleProfile
        rfl rfl rfl rfl (by decide)).2 rfl⟩

end SaasApp
